import Mathlib

/-!
Verification of the debsig-verify OpenPGP (GnuPG) backend, `src/openpgp-gpg.c`.

The C file is shallowly embedded here.  C strings are modelled as `List Char`
(a byte buffer up to its first NUL); each line delivered by `fgets` is one
`List Char`; the line stream consumed from the gpg subprocess is a
`List (List Char)`.  Side effects that the claims talk about (trust-store
directory creation, the GNUPGHOME environment override, subprocess spawning)
are modelled with an explicit state record and explicit effect traces.
-/

namespace OpenpgpGpg

/-- Modelled from the spec: `OPENPGP_FPR_LEN` is declared in `debsig.h`, which
is not part of the sources under verification; the spec fixes the fingerprint
to a fixed number of hexadecimal characters and its scenario uses a 40-hex-char
fingerprint, so the constant is 40. -/
def OPENPGP_FPR_LEN : Nat := 40

/-- C `isspace` in the C locale: space, tab, newline, vertical tab, form feed,
carriage return (used via `while (isspace(*d)) d++;`). -/
def isspace_c (c : Char) : Bool :=
  c == ' ' || c == '\t' || c == '\n' || c == '\x0b' || c == '\x0c' || c == '\r'

/-- C `isdigit` in the C locale (used via `while (isdigit(*d)) d++;`). -/
def isdigit_c (c : Char) : Bool :=
  c.isDigit

/-- Predicate for the `strchr(buf, '\n')` truncation: a character survives the
truncation at the first newline iff it is not `'\n'`. -/
def not_newline (c : Char) : Bool :=
  c != '\n'

/-- Embeds `match_prefix` (openpgp-gpg.c:120-126):
`strncmp(str, pat, strlen(pat)) == 0`. -/
def match_prefix (str pat : List Char) : Bool :=
  pat.isPrefixOf str

/-- Embeds `strchrnul(str, ':')` as the suffix of `str` starting at the first
`':'` (the whole remaining string is dropped when there is no colon, which is
exactly the "points at the terminating NUL" case of `strchrnul`). -/
def strchrnul_colon (str : List Char) : List Char :=
  str.dropWhile (fun c => c != ':')

/-- Loop of `get_colon_field` (openpgp-gpg.c:133-137) followed by the final
field extraction (lines 139-143).  The counter is the number of remaining
iterations of `for (field = 1; field < field_num; field++)`.  Note that the
loop body is exactly the C source: it re-runs `strchrnul` on the position of
the colon it found and never advances past it. -/
def gcf_loop : List Char → Nat → Option (List Char)
  | str, 0 =>
    let e := strchrnul_colon str
    if e.head? = some ':' then some (str.takeWhile (fun c => c != ':')) else none
  | str, Nat.succ k =>
    let s := strchrnul_colon str
    if s.head? = some ':' then gcf_loop s k else none

/-- Embeds `get_colon_field` (openpgp-gpg.c:128-144).  The final
`strndup(str, end - str)` is the prefix of the current position up to the next
colon. -/
def get_colon_field (str : List Char) (field_num : Nat) : Option (List Char) :=
  gcf_loop str (field_num - 1)

/-- Embeds `enum colon_fields` value `COLON_FIELD_FPR_ID` (openpgp-gpg.c:116). -/
def COLON_FIELD_FPR_ID : Nat := 10

/-- Embeds `enum colon_fields` value `COLON_FIELD_UID_ID` (openpgp-gpg.c:117). -/
def COLON_FIELD_UID_ID : Nat := 10

/-- Embeds `enum keyid_state` (openpgp-gpg.c:107-113). -/
inductive KeyidState where
  | KEYID_UNKNOWN
  | KEYID_PUB
  | KEYID_FPR
  | KEYID_UID
  | KEYID_SIG
deriving DecidableEq

/-- Record-kind tag of certificate records in the colon listing. -/
def pub_str : List Char := "pub:".data

/-- Record-kind tag of fingerprint records in the colon listing. -/
def fpr_str : List Char := "fpr:".data

/-- Record-kind tag of user-identity records in the colon listing. -/
def uid_str : List Char := "uid:".data

/-- Embeds the `while (fgets(...))` scanning loop of `gpg_getKeyID`
(openpgp-gpg.c:192-222).  `id` is `mtc->id`; `ret` is the running `ret`
variable; each list element is one line read from the gpg colon listing.
The `break` on a matched user identity returns the current `ret`. -/
def getKeyID_scan (id : List Char) : List (List Char) → KeyidState → Option (List Char) → Option (List Char)
  | [], _, ret => ret
  | l :: ls, st, ret =>
    match st with
    | KeyidState.KEYID_UNKNOWN =>
      if match_prefix l pub_str then getKeyID_scan id ls KeyidState.KEYID_PUB ret
      else getKeyID_scan id ls KeyidState.KEYID_UNKNOWN ret
    | KeyidState.KEYID_PUB =>
      if match_prefix l fpr_str then
        getKeyID_scan id ls KeyidState.KEYID_FPR (get_colon_field l COLON_FIELD_FPR_ID)
      else getKeyID_scan id ls KeyidState.KEYID_PUB ret
    | KeyidState.KEYID_FPR =>
      if match_prefix l uid_str then
        match get_colon_field l COLON_FIELD_UID_ID with
        | none => getKeyID_scan id ls KeyidState.KEYID_FPR ret
        | some uid => if uid = id then ret else getKeyID_scan id ls KeyidState.KEYID_FPR ret
      else getKeyID_scan id ls KeyidState.KEYID_FPR ret
    | st => getKeyID_scan id ls st ret

/-- Observable side effects of the two gpg-invoking operations, in program
order: the call to `gpg_init`, the keyring path lookup via `getDbPathname`,
the fork/exec of the gpg subprocess, and the child closing its standard
streams before exec in non-verbose verification. -/
inductive Effect where
  | callGpgInit
  | callGetDbPathname
  | spawnSubprocess
  | closeStdStreams
deriving DecidableEq

/-- Embeds `gpg_getKeyID` (openpgp-gpg.c:146-235).  `mtc_id` is `mtc->id`
(NULL becomes `none`); `keyring` is the result of
`getDbPathname(rootdir, keyrings_dir, originID, mtc->file)`; `stream` is the
sequence of lines read from the spawned `gpg --with-colons --show-keys`.
The returned pair is the C return value together with the trace of effects
performed.  When the scan sets no `ret`, the function falls back to `mtc->id`
(lines 227-232). -/
def gpg_getKeyID (mtc_id : Option (List Char)) (keyring : Option String)
    (stream : List (List Char)) : Option (List Char) × List Effect :=
  match mtc_id with
  | none => (none, [])
  | some id =>
    match keyring with
    | none => (none, [Effect.callGpgInit, Effect.callGetDbPathname])
    | some _ =>
      match getKeyID_scan id stream KeyidState.KEYID_UNKNOWN none with
      | none => (some id, [Effect.callGpgInit, Effect.callGetDbPathname, Effect.spawnSubprocess])
      | some r => (some r, [Effect.callGpgInit, Effect.callGetDbPathname, Effect.spawnSubprocess])

/-- The literal `":signature packet:"` matched in `gpg_getSigKeyID`. -/
def sig_pkt_str : List Char := ":signature packet:".data

/-- The literal `keyid_str` (openpgp-gpg.c:299). -/
def keyid_str : List Char := "keyid".data

/-- The literal `issuer_fpr_str` (openpgp-gpg.c:317). -/
def issuer_fpr_str : List Char := "issuer fpr v".data

/-- Embeds `strstr(hay, pat)` as the suffix of `hay` starting at the first
occurrence of `pat` (or `none`, for a NULL result). -/
def strstr_suffix (pat : List Char) : List Char → Option (List Char)
  | [] => if pat.isPrefixOf ([] : List Char) then some [] else none
  | c :: rest =>
    if pat.isPrefixOf (c :: rest) then some (c :: rest) else strstr_suffix pat rest

/-- Embeds the key-id capture of `gpg_getSigKeyID` (openpgp-gpg.c:301-312):
truncate the line at its first newline, look for `"keyid"`, skip it and any
following whitespace, and keep the rest as the fallback identifier. -/
def keyid_capture (l : List Char) : Option (List Char) :=
  let stripped := l.takeWhile not_newline
  match strstr_suffix keyid_str stripped with
  | none => none
  | some d => some ((d.drop keyid_str.length).dropWhile isspace_c)

/-- Embeds the issuer-fingerprint extraction of `gpg_getSigKeyID`
(openpgp-gpg.c:319-332): look for `"issuer fpr v"`, truncate the line at its
first newline, skip the marker, the version digit run and following
whitespace, and truncate the value to `OPENPGP_FPR_LEN` characters
(`ret[OPENPGP_FPR_LEN] = '\0'`). -/
def issuer_fpr_extract (l : List Char) : Option (List Char) :=
  match strstr_suffix issuer_fpr_str l with
  | none => none
  | some d =>
    let r := ((d.drop issuer_fpr_str.length).takeWhile not_newline).dropWhile isdigit_c
    some ((r.dropWhile isspace_c).take OPENPGP_FPR_LEN)

/-- Embeds the `while (fgets(...))` scanning loop of `gpg_getSigKeyID`
(openpgp-gpg.c:290-334).  Lines whose first byte is `'#'` are skipped.  In
`KEYID_UNKNOWN`, a line matching `":signature packet:"` may capture a key id
into `ret`, and the state becomes `KEYID_SIG` for every non-comment line, as
in the source (the assignment at line 315 is outside the `match_prefix`
conditional).  In `KEYID_SIG`, the first line with an issuer-fingerprint
marker produces the result and breaks. -/
def getSigKeyID_scan : List (List Char) → KeyidState → Option (List Char) → Option (List Char)
  | [], _, ret => ret
  | l :: ls, st, ret =>
    if l.head? = some '#' then getSigKeyID_scan ls st ret
    else
      match st with
      | KeyidState.KEYID_UNKNOWN =>
        if match_prefix l sig_pkt_str then
          match keyid_capture l with
          | some k => getSigKeyID_scan ls KeyidState.KEYID_SIG (some k)
          | none => getSigKeyID_scan ls KeyidState.KEYID_SIG ret
        else getSigKeyID_scan ls KeyidState.KEYID_SIG ret
      | KeyidState.KEYID_SIG =>
        match issuer_fpr_extract l with
        | some fpr => some fpr
        | none => getSigKeyID_scan ls KeyidState.KEYID_SIG ret
      | st => getSigKeyID_scan ls st ret

/-- Embeds `gpg_getSigKeyID` (openpgp-gpg.c:237-347).  `sig_len` is the
`checkSigExist` length (a zero length returns NULL before any parsing);
`stream` is the sequence of lines read back from `gpg --list-packets`. -/
def gpg_getSigKeyID (sig_len : Nat) (stream : List (List Char)) : Option (List Char) :=
  if sig_len = 0 then none
  else getSigKeyID_scan stream KeyidState.KEYID_UNKNOWN none

/-- Outcome of waiting for the gpg child process: a normal exit with a status
code, or termination by a signal. -/
inductive ProcStatus where
  | exited : Nat → ProcStatus
  | signaled : Nat → ProcStatus
deriving DecidableEq

/-- Modelled from the spec: dpkg's `subproc_reap` with
`SUBPROC_RETERROR | SUBPROC_RETSIGNO` (dpkg is an external collaborator, not
part of the sources under verification).  The spec requires the exit status to
be reported as one of normal-zero-exit, non-zero-exit, or
terminated-by-signal, so the returned code is 0 exactly on a normal zero
exit, the exit code on a non-zero exit, and the (positive) signal number on a
signal death. -/
def subproc_reap_rc : ProcStatus → Nat
  | ProcStatus.exited c => c
  | ProcStatus.signaled s => s

/-- Embeds `gpg_sigVerify` (openpgp-gpg.c:349-387).  `suppress_streams` is the
child's `DS_LEV_DEBUG < ds_debug_level` check that closes fds 0,1,2;
`keyring` is the `getDbPathname` result; `status` is how the spawned gpg
terminated.  The C function returns 1 exactly when `subproc_reap` returns 0. -/
def gpg_sigVerify (suppress_streams : Bool) (keyring : Option String)
    (status : ProcStatus) : Bool × List Effect :=
  match keyring with
  | none => (false, [Effect.callGpgInit, Effect.callGetDbPathname])
  | some _ =>
    let effs := [Effect.callGpgInit, Effect.callGetDbPathname, Effect.spawnSubprocess] ++
      (if suppress_streams then [Effect.closeStdStreams] else [])
    if subproc_reap_rc status ≠ 0 then (false, effs) else (true, effs)

/-- Process-wide state owned by `gpg_init` / `cleanup_gpg_tmpdir`
(openpgp-gpg.c:43-45 plus the observable filesystem/environment footprint):
the `gpg_inited` flag, the `gpg_prog` program name, the cached `gpg_tmpdir`
pointer, the value of the GNUPGHOME environment override, whether the
temporary directory currently exists on disk, and counters of how many times
a directory was created, the environment was overridden, and an atexit
handler was registered. -/
structure GpgState where
  gpg_inited : Bool
  gpg_prog : String
  gpg_tmpdir : Option String
  env_gnupghome : Option String
  tmpdir_exists : Bool
  dirs_created : Nat
  env_sets : Nat
  atexit_regs : Nat
deriving DecidableEq

/-- The state at program start: `gpg_inited = 0`, `gpg_prog = "gpg"`,
`gpg_tmpdir = NULL`, no override, no directory, zero counters. -/
def initGpgState : GpgState :=
  { gpg_inited := false, gpg_prog := "gpg", gpg_tmpdir := none, env_gnupghome := none,
    tmpdir_exists := false, dirs_created := 0, env_sets := 0, atexit_regs := 0 }

/-- Embeds `gpg_init` (openpgp-gpg.c:65-94).  `debsig_gnupg_program` is
`getenv("DEBSIG_GNUPG_PROGRAM")`; `mkdtemp_result` is the directory produced
by `mkdtemp` (`none` for failure, which is the fatal `ohshite` path).  When
`gpg_inited` is already set the function returns at once, touching nothing. -/
def gpg_init (s : GpgState) (debsig_gnupg_program : Option String)
    (mkdtemp_result : Option String) : Except String GpgState :=
  if s.gpg_inited then Except.ok s
  else
    match mkdtemp_result with
    | none => Except.error "cannot create temporary directory"
    | some dir =>
      Except.ok
        { gpg_inited := true, gpg_prog := debsig_gnupg_program.getD s.gpg_prog,
          gpg_tmpdir := some dir,
          env_gnupghome := some dir, tmpdir_exists := true,
          dirs_created := s.dirs_created + 1, env_sets := s.env_sets + 1,
          atexit_regs := s.atexit_regs + 1 }

/-- Embeds `cleanup_gpg_tmpdir` (openpgp-gpg.c:47-62): spawn `rm -rf` on the
temporary directory, free and clear `gpg_tmpdir`, and clear `gpg_inited`.
The GNUPGHOME environment override is not touched by the source. -/
def cleanup_gpg_tmpdir (s : GpgState) : GpgState :=
  { s with tmpdir_exists := false, gpg_tmpdir := none, gpg_inited := false }

/-- Runs a sequence of `gpg_init` calls (each with its observed
`DEBSIG_GNUPG_PROGRAM` and `mkdtemp` outcome) from a starting state.  A fatal
error (`ohshite`) aborts the process, so the fold stops there. -/
def runInits (s : GpgState) : List (Option String × Option String) → GpgState
  | [] => s
  | (p, d) :: rest =>
    match gpg_init s p d with
    | Except.ok s' => runInits s' rest
    | Except.error _ => s

/-! Helper lemmas about characters and list scanning. -/

/-- A character satisfying `isspace_c` is one of the six C whitespace bytes. -/
theorem isspace_cases (c : Char) (h : isspace_c c = true) :
    c = ' ' ∨ c = '\t' ∨ c = '\n' ∨ c = '\x0b' ∨ c = '\x0c' ∨ c = '\r' := by
  simp only [isspace_c, Bool.or_eq_true, beq_iff_eq] at h
  tauto

/-- Whitespace is never a digit. -/
theorem isspace_not_isdigit (c : Char) (h : isspace_c c = true) : isdigit_c c = false := by
  rcases isspace_cases c h with rfl | rfl | rfl | rfl | rfl | rfl <;> decide

/-- A digit survives the newline truncation. -/
theorem isdigit_not_newline (c : Char) (h : isdigit_c c = true) : not_newline c = true := by
  have hne : c ≠ '\n' := by
    intro e
    rw [e] at h
    exact absurd h (by decide)
  simpa [not_newline, bne_iff_ne] using hne

/-- A non-newline character survives the newline truncation. -/
theorem ne_newline_not_newline (c : Char) (h : c ≠ '\n') : not_newline c = true := by
  simpa [not_newline, bne_iff_ne] using h

/-- A non-whitespace character survives the newline truncation. -/
theorem not_isspace_not_newline (c : Char) (h : isspace_c c = false) : not_newline c = true := by
  apply ne_newline_not_newline
  intro e
  rw [e] at h
  exact absurd h (by decide)

/-- `takeWhile` passes over a block of characters it accepts. -/
theorem takeWhile_append_of_all {p : Char → Bool} :
    ∀ l1 l2 : List Char, (∀ c ∈ l1, p c = true) →
      List.takeWhile p (l1 ++ l2) = l1 ++ List.takeWhile p l2 := by
  intro l1
  induction l1 with
  | nil => intro l2 _; rfl
  | cons a t ih =>
    intro l2 h
    have ha : p a = true := h a (List.mem_cons_self a t)
    simp [List.takeWhile, ha, ih l2 (fun c hc => h c (List.mem_cons_of_mem a hc))]

/-- `dropWhile` removes a block of characters it accepts. -/
theorem dropWhile_append_of_all {p : Char → Bool} :
    ∀ l1 l2 : List Char, (∀ c ∈ l1, p c = true) →
      List.dropWhile p (l1 ++ l2) = List.dropWhile p l2 := by
  intro l1
  induction l1 with
  | nil => intro l2 _; rfl
  | cons a t ih =>
    intro l2 h
    have ha : p a = true := h a (List.mem_cons_self a t)
    simp [List.dropWhile, ha, ih l2 (fun c hc => h c (List.mem_cons_of_mem a hc))]

/-- `dropWhile` stops at a character it rejects. -/
theorem dropWhile_cons_false {p : Char → Bool} (a : Char) (l : List Char) (h : p a = false) :
    List.dropWhile p (a :: l) = a :: l := by
  simp [List.dropWhile, h]

/-- Scanning step: a comment line is skipped in any state. -/
theorem sig_scan_comment (l : List Char) (ls : List (List Char)) (st : KeyidState)
    (ret : Option (List Char)) (hc : l.head? = some '#') :
    getSigKeyID_scan (l :: ls) st ret = getSigKeyID_scan ls st ret := by
  simp [getSigKeyID_scan, hc]

/-- Scanning step: in `KEYID_UNKNOWN`, a non-comment line that is not a
signature-packet record still moves to `KEYID_SIG` (the transition is
unconditional in the source) with `ret` unchanged. -/
theorem sig_scan_unknown_nomatch (l : List Char) (ls : List (List Char))
    (ret : Option (List Char)) (hc : ¬ l.head? = some '#')
    (hm : match_prefix l sig_pkt_str = false) :
    getSigKeyID_scan (l :: ls) KeyidState.KEYID_UNKNOWN ret
      = getSigKeyID_scan ls KeyidState.KEYID_SIG ret := by
  simp [getSigKeyID_scan, hc, hm]

/-- Scanning step: in `KEYID_UNKNOWN`, a signature-packet record with a key id
captures it and moves to `KEYID_SIG`. -/
theorem sig_scan_unknown_kid (l : List Char) (ls : List (List Char))
    (ret : Option (List Char)) (kid : List Char) (hc : ¬ l.head? = some '#')
    (hm : match_prefix l sig_pkt_str = true) (hk : keyid_capture l = some kid) :
    getSigKeyID_scan (l :: ls) KeyidState.KEYID_UNKNOWN ret
      = getSigKeyID_scan ls KeyidState.KEYID_SIG (some kid) := by
  simp [getSigKeyID_scan, hc, hm, hk]

/-- Scanning step: in `KEYID_SIG`, a non-comment line without the
issuer-fingerprint marker is skipped. -/
theorem sig_scan_sig_skip (l : List Char) (ls : List (List Char))
    (ret : Option (List Char)) (hc : ¬ l.head? = some '#')
    (he : issuer_fpr_extract l = none) :
    getSigKeyID_scan (l :: ls) KeyidState.KEYID_SIG ret
      = getSigKeyID_scan ls KeyidState.KEYID_SIG ret := by
  simp [getSigKeyID_scan, hc, he]

/-- Scanning step: in `KEYID_SIG`, the first line carrying the
issuer-fingerprint marker produces the result and breaks the loop. -/
theorem sig_scan_sig_hit (l : List Char) (ls : List (List Char))
    (ret : Option (List Char)) (fpr : List Char) (hc : ¬ l.head? = some '#')
    (he : issuer_fpr_extract l = some fpr) :
    getSigKeyID_scan (l :: ls) KeyidState.KEYID_SIG ret = some fpr := by
  simp [getSigKeyID_scan, hc, he]

/-- In `KEYID_SIG`, a block of comment or marker-free lines is skipped. -/
theorem sig_scan_skip_all :
    ∀ L : List (List Char),
      (∀ l ∈ L, l.head? = some '#' ∨ issuer_fpr_extract l = none) →
      ∀ (rest : List (List Char)) (ret : Option (List Char)),
        getSigKeyID_scan (L ++ rest) KeyidState.KEYID_SIG ret
          = getSigKeyID_scan rest KeyidState.KEYID_SIG ret := by
  intro L
  induction L with
  | nil => intro _ rest ret; rfl
  | cons l t ih =>
    intro h rest ret
    have ht := fun x hx => h x (List.mem_cons_of_mem l hx)
    by_cases hc : l.head? = some '#'
    · rw [List.cons_append, sig_scan_comment l (t ++ rest) _ ret hc, ih ht rest ret]
    · rcases h l (List.mem_cons_self l t) with hc' | he
      · exact absurd hc' hc
      · rw [List.cons_append, sig_scan_sig_skip l (t ++ rest) ret hc he, ih ht rest ret]

/-- Scanning a block of comment or unrelated marker-free lines from
`KEYID_UNKNOWN` either stays in `KEYID_UNKNOWN` (all comments) or reaches
`KEYID_SIG`, leaving `ret` unchanged either way. -/
theorem sig_scan_pre_unknown :
    ∀ L : List (List Char),
      (∀ l ∈ L, l.head? = some '#' ∨
        ( match_prefix l sig_pkt_str = false ∧ issuer_fpr_extract l = none)) →
      ∀ (rest : List (List Char)) (ret : Option (List Char)),
        getSigKeyID_scan (L ++ rest) KeyidState.KEYID_UNKNOWN ret
            = getSigKeyID_scan rest KeyidState.KEYID_UNKNOWN ret ∨
        getSigKeyID_scan (L ++ rest) KeyidState.KEYID_UNKNOWN ret
            = getSigKeyID_scan rest KeyidState.KEYID_SIG ret := by
  intro L
  induction L with
  | nil => intro _ rest ret; exact Or.inl rfl
  | cons l t ih =>
    intro h rest ret
    have ht := fun x hx => h x (List.mem_cons_of_mem l hx)
    by_cases hc : l.head? = some '#'
    · rw [List.cons_append, sig_scan_comment l (t ++ rest) _ ret hc]
      exact ih ht rest ret
    · rcases h l (List.mem_cons_self l t) with hc' | ⟨hm, _⟩
      · exact absurd hc' hc
      · right
        rw [List.cons_append, sig_scan_unknown_nomatch l (t ++ rest) ret hc hm]
        exact sig_scan_skip_all t (fun x hx => (ht x hx).imp id And.right) rest ret

/-- Computes `issuer_fpr_extract` on a line whose first issuer-fingerprint
marker is followed by a digit run, nonempty non-newline whitespace, a value of
exactly `OPENPGP_FPR_LEN` non-whitespace characters, and an arbitrary tail:
the result is exactly the value, whatever the tail is. -/
theorem issuer_fpr_extract_eq (fprLine digits spaces fpr40 tail : List Char)
    (hstr : strstr_suffix issuer_fpr_str fprLine
      = some (issuer_fpr_str ++ (digits ++ (spaces ++ (fpr40 ++ tail)))))
    (hdig : ∀ c ∈ digits, isdigit_c c = true)
    (hsp1 : spaces ≠ [])
    (hsp2 : ∀ c ∈ spaces, isspace_c c = true ∧ c ≠ '\n')
    (hfl : fpr40.length = OPENPGP_FPR_LEN)
    (hfc : ∀ c ∈ fpr40, isspace_c c = false) :
    issuer_fpr_extract fprLine = some fpr40 := by
  have hred : issuer_fpr_extract fprLine =
      some (((((issuer_fpr_str ++ (digits ++ (spaces ++ (fpr40 ++ tail)))).drop
        issuer_fpr_str.length).takeWhile not_newline).dropWhile
        isdigit_c).dropWhile isspace_c |>.take OPENPGP_FPR_LEN) := by
    unfold issuer_fpr_extract
    rw [hstr]
  rw [hred]
  congr 1
  rw [List.drop_left]
  obtain ⟨s0, s', rfl⟩ : ∃ s0 s', spaces = s0 :: s' := by
    cases spaces with
    | nil => exact absurd rfl hsp1
    | cons a b => exact ⟨a, b, rfl⟩
  obtain ⟨f0, f', rfl⟩ : ∃ f0 f', fpr40 = f0 :: f' := by
    cases fpr40 with
    | nil => simp [OPENPGP_FPR_LEN] at hfl
    | cons a b => exact ⟨a, b, rfl⟩
  have hnnd : ∀ c ∈ digits, not_newline c = true :=
    fun c hc => isdigit_not_newline c (hdig c hc)
  have hnns : ∀ c ∈ s0 :: s', not_newline c = true :=
    fun c hc => ne_newline_not_newline c (hsp2 c hc).2
  have hnnf : ∀ c ∈ f0 :: f', not_newline c = true :=
    fun c hc => not_isspace_not_newline c (hfc c hc)
  rw [takeWhile_append_of_all digits _ hnnd, takeWhile_append_of_all (s0 :: s') _ hnns,
    takeWhile_append_of_all (f0 :: f') _ hnnf,
    dropWhile_append_of_all digits _ hdig, List.cons_append,
    dropWhile_cons_false s0 _ (isspace_not_isdigit s0 (hsp2 s0 (List.mem_cons_self s0 s')).1),
    ← List.cons_append,
    dropWhile_append_of_all (s0 :: s') _ (fun c hc => (hsp2 c hc).1), List.cons_append,
    dropWhile_cons_false f0 _ (hfc f0 (List.mem_cons_self f0 f')),
    ← List.cons_append, ← hfl, List.take_left]

/-- The scan of `gpg_getKeyID` never leaves `KEYID_UNKNOWN` and never changes
`ret` when no line is a certificate (`pub:`) record. -/
theorem getKeyID_scan_no_pub (id : List Char) :
    ∀ (stream : List (List Char)) (ret : Option (List Char)),
      (∀ l ∈ stream, match_prefix l pub_str = false) →
      getKeyID_scan id stream KeyidState.KEYID_UNKNOWN ret = ret := by
  intro stream
  induction stream with
  | nil => intro ret _; rfl
  | cons l t ih =>
    intro ret h
    have hl := h l (List.mem_cons_self l t)
    simp only [getKeyID_scan, hl, Bool.false_eq_true, if_false]
    exact ih ret (fun x hx => h x (List.mem_cons_of_mem l hx))

/-- A sequence of `gpg_init` calls on an already-inited state is a no-op. -/
theorem runInits_inited :
    ∀ (calls : List (Option String × Option String)) (s : GpgState),
      s.gpg_inited = true → runInits s calls = s := by
  intro calls
  induction calls with
  | nil => intro s _; rfl
  | cons c rest ih =>
    intro s h
    obtain ⟨p, d⟩ := c
    simp only [runInits, gpg_init, h, if_true]
    exact ih s h

/-- Each counter of the trust-store state grows by at most one over any
sequence of `gpg_init` calls, and not at all when the state is already
inited. -/
theorem runInits_counters :
    ∀ (calls : List (Option String × Option String)) (s : GpgState),
      (runInits s calls).dirs_created ≤ s.dirs_created + (if s.gpg_inited then 0 else 1) ∧
      (runInits s calls).env_sets ≤ s.env_sets + (if s.gpg_inited then 0 else 1) ∧
      (runInits s calls).atexit_regs ≤ s.atexit_regs + (if s.gpg_inited then 0 else 1) := by
  intro calls
  induction calls with
  | nil =>
    intro s
    refine ⟨?_, ?_, ?_⟩ <;> simp only [runInits] <;> split <;> omega
  | cons c rest ih =>
    intro s
    obtain ⟨p, d⟩ := c
    by_cases hi : s.gpg_inited
    · have hstep : runInits s ((p, d) :: rest) = runInits s rest := by
        simp [runInits, gpg_init, hi]
      rw [hstep]
      exact ih s
    · cases d with
      | none =>
        have hstep : runInits s ((p, none) :: rest) = s := by
          simp [runInits, gpg_init, hi]
        rw [hstep]
        refine ⟨?_, ?_, ?_⟩ <;> simp [hi]
      | some dir =>
        have hstep : runInits s ((p, some dir) :: rest)
            = runInits
              { gpg_inited := true, gpg_prog := p.getD s.gpg_prog,
                gpg_tmpdir := some dir, env_gnupghome := some dir,
                tmpdir_exists := true, dirs_created := s.dirs_created + 1,
                env_sets := s.env_sets + 1, atexit_regs := s.atexit_regs + 1 } rest := by
          simp [runInits, gpg_init, hi]
        rw [hstep, runInits_inited rest _ rfl]
        refine ⟨?_, ?_, ?_⟩ <;> simp [hi]

/-! Claim theorems. -/

/-- Claim C1 (code bug): for a colon stream with a certificate record, a
fingerprint record carrying the fingerprint in field 10, and a later
user-identity record whose field 10 equals the expected identity,
`gpg_getKeyID` is claimed to return the fingerprint.  Evaluating the code at
exactly such a stream returns the empty string instead: the field-skipping
loop of `get_colon_field` never advances past the colon it finds, so field
extraction for any field number above 1 collapses to the empty field before
the first colon, the user-identity comparison can never match, and the
captured "fingerprint" is empty. -/
theorem getKeyID_colon_bug_eval :
    (gpg_getKeyID (some ("Example Archive <sign@example.org>".data)) (some "origin.gpg")
        ["pub:u:255:22:0123456789ABCDEF:1:2:::::::::::".data,
         "fpr:::::::::ABCDABCDABCDABCDABCDABCDABCDABCDABCD1234:".data,
         "uid:u:1:2:3:4:5:6:7:Example Archive <sign@example.org>:".data]).fst
        = some []
    ∧ (gpg_getKeyID (some ("Example Archive <sign@example.org>".data)) (some "origin.gpg")
        ["pub:u:255:22:0123456789ABCDEF:1:2:::::::::::".data,
         "fpr:::::::::ABCDABCDABCDABCDABCDABCDABCDABCDABCD1234:".data,
         "uid:u:1:2:3:4:5:6:7:Example Archive <sign@example.org>:".data]).fst
        ≠ some ("ABCDABCDABCDABCDABCDABCDABCDABCDABCD1234".data) := by
  constructor
  · decide
  · decide

/-- Claim C2 (code bug): requesting a field index beyond the line's field
count is claimed to yield "field absent" (`none`).  The line `uid:x` has two
fields, yet requesting field `COLON_FIELD_UID_ID = 10` evaluates to
`some []`: the skipping loop gets stuck on the first colon and the final
extraction returns the empty string rather than `NULL`. -/
theorem get_colon_field_absent_bug_eval :
    get_colon_field ("uid:x".data) COLON_FIELD_UID_ID = some [] := by
  decide

/-- Claim C3: `gpg_sigVerify` returns true exactly on a normal zero exit of
the gpg child; every non-zero exit and every signal death (signal numbers are
positive) yields false, independently of whether the child's standard streams
were suppressed; and when the keyring path cannot be resolved it returns
false with no subprocess spawned. -/
theorem gpg_sigVerify_exit_status_spec :
    (∀ (sup : Bool) (k : String) (c : Nat),
        (gpg_sigVerify sup (some k) (ProcStatus.exited c)).fst = true ↔ c = 0)
    ∧ (∀ (sup : Bool) (k : String) (n : Nat), 0 < n →
        (gpg_sigVerify sup (some k) (ProcStatus.signaled n)).fst = false)
    ∧ (∀ (sup : Bool) (st : ProcStatus),
        gpg_sigVerify sup none st = (false, [Effect.callGpgInit, Effect.callGetDbPathname])) := by
  refine ⟨?_, ?_, ?_⟩
  · intro sup k c
    by_cases h : c = 0 <;> simp [gpg_sigVerify, subproc_reap_rc, h]
  · intro sup k n hn
    have hne : n ≠ 0 := Nat.pos_iff_ne_zero.mp hn
    simp [gpg_sigVerify, subproc_reap_rc, hne]
  · intro sup st
    rfl

/-- Witness for C3: a gpg child killed by signal 9 yields a false verdict. -/
theorem gpg_sigVerify_exit_status_witness :
    0 < 9 ∧ (gpg_sigVerify false (some "origin.gpg") (ProcStatus.signaled 9)).fst = false :=
  ⟨by decide, gpg_sigVerify_exit_status_spec.2.1 false "origin.gpg" 9 (by decide)⟩

/-- Claim C4: for a packet listing made of unrelated or comment lines, then
the unique signature-packet record carrying a key id, then marker-free or
comment field lines, then the issuer-fingerprint field line, `gpg_getSigKeyID`
returns the fingerprint value that follows the `issuer fpr v` marker, its
version digit run and the following whitespace, truncated to exactly
`OPENPGP_FPR_LEN` characters — the arbitrary `tail` after those characters
has no effect on the result. -/
theorem getSigKeyID_issuer_fpr_spec
    (sig_len : Nat) (pre mid post : List (List Char))
    (sigLine junk digits spaces fpr40 tail : List Char) (kid : List Char)
    (hlen : sig_len ≠ 0)
    (hpre : ∀ l ∈ pre, l.head? = some '#' ∨
      ( match_prefix l sig_pkt_str = false ∧ issuer_fpr_extract l = none))
    (hsig : match_prefix sigLine sig_pkt_str = true)
    (hkid : keyid_capture sigLine = some kid)
    (hsig2 : issuer_fpr_extract sigLine = none)
    (hmid : ∀ l ∈ mid, l.head? = some '#' ∨ issuer_fpr_extract l = none)
    (hjunk : ∀ c ∈ junk, c ≠ '\n')
    (hcmt : ¬ (junk ++ (issuer_fpr_str ++ (digits ++ (spaces ++ (fpr40 ++ tail))))).head?
      = some '#')
    (hstr : strstr_suffix issuer_fpr_str
        (junk ++ (issuer_fpr_str ++ (digits ++ (spaces ++ (fpr40 ++ tail)))))
      = some (issuer_fpr_str ++ (digits ++ (spaces ++ (fpr40 ++ tail)))))
    (hdig : ∀ c ∈ digits, isdigit_c c = true)
    (hsp1 : spaces ≠ [])
    (hsp2 : ∀ c ∈ spaces, isspace_c c = true ∧ c ≠ '\n')
    (hfl : fpr40.length = OPENPGP_FPR_LEN)
    (hfc : ∀ c ∈ fpr40, isspace_c c = false) :
    gpg_getSigKeyID sig_len
        (pre ++ sigLine ::
          (mid ++ (junk ++ (issuer_fpr_str ++ (digits ++ (spaces ++ (fpr40 ++ tail))))) :: post))
      = some fpr40 := by
  have hext : issuer_fpr_extract
      (junk ++ (issuer_fpr_str ++ (digits ++ (spaces ++ (fpr40 ++ tail))))) = some fpr40 :=
    issuer_fpr_extract_eq _ digits spaces fpr40 tail hstr hdig hsp1 hsp2 hfl hfc
  have hsig' : sig_pkt_str.isPrefixOf sigLine = true := hsig
  have hsch : sigLine.head? = some ':' := by
    obtain ⟨t, ht⟩ := List.isPrefixOf_iff_prefix.mp hsig'
    rw [← ht]
    rfl
  have hscmt : ¬ sigLine.head? = some '#' := by
    rw [hsch]
    decide
  unfold gpg_getSigKeyID
  rw [if_neg hlen]
  rcases sig_scan_pre_unknown pre hpre
      (sigLine ::
        (mid ++ (junk ++ (issuer_fpr_str ++ (digits ++ (spaces ++ (fpr40 ++ tail))))) :: post))
      none with hU | hS
  · rw [hU, sig_scan_unknown_kid sigLine _ none kid hscmt hsig hkid,
      sig_scan_skip_all mid hmid _ (some kid),
      sig_scan_sig_hit _ post (some kid) fpr40 hcmt hext]
  · rw [hS, sig_scan_sig_skip sigLine _ none hscmt hsig2,
      sig_scan_skip_all mid hmid _ none,
      sig_scan_sig_hit _ post none fpr40 hcmt hext]

/-- Witness for C4 at a concrete `gpg --list-packets` stream: one comment
line, the signature-packet record with key id `ABCDEF0123456789`, one version
field line, then the issuer-fingerprint line whose 40-character value is
followed by extra characters; the result is the 40-character fingerprint. -/
theorem getSigKeyID_issuer_fpr_witness :
    gpg_getSigKeyID 1
        (["# off=0 ctb=89 tag=2 hlen=3 plen=307".data] ++
          (":signature packet: algo 1, keyid ABCDEF0123456789".data) ::
            (["\tversion 4, created 1610000000, md5len 0, sigclass 0x00".data] ++
              ("\t".data ++ (issuer_fpr_str ++ ("4".data ++ (" ".data ++
                ("ABCDABCDABCDABCDABCDABCDABCDABCDABCD1234".data ++ "XY\n".data))))) :: []))
      = some ("ABCDABCDABCDABCDABCDABCDABCDABCDABCD1234".data) :=
  getSigKeyID_issuer_fpr_spec 1 _ _ _ _ _ _ _ _ _ ("ABCDEF0123456789".data)
    (by decide) (by decide) (by decide) (by decide) (by decide) (by decide)
    (by decide) (by decide) (by decide) (by decide) (by decide) (by decide)
    (by decide) (by decide)

/-- Claim C5 (code bug): an empty or `:signature packet:`-free packet listing
is claimed to yield no identifier.  Because the source sets
`state = KEYID_SIG` for the first non-comment line whether or not it is a
signature-packet record (the assignment sits outside the `match_prefix`
conditional, directly under the comment "Signature packet found"), a stream
with no signature-packet marker at all still extracts an issuer fingerprint
from a later line. -/
theorem getSigKeyID_markerless_bug_eval :
    gpg_getSigKeyID 1
        [":literal data packet:".data,
         "\tissuer fpr v4 ABCDABCDABCDABCDABCDABCDABCDABCDABCD1234".data]
      = some ("ABCDABCDABCDABCDABCDABCDABCDABCDABCD1234".data) := by
  decide

/-- Claim C6 counterexample: a colon stream containing a certificate record
followed by a fingerprint record but no matching user identity at all does
not return the caller's expected identity verbatim (the claim predicts the
fallback), because `ret` is already set when the fingerprint record is
scanned and the fallback only fires on a `NULL` `ret`. -/
theorem getKeyID_fallback_cex :
    (gpg_getKeyID (some ("Z".data)) (some "origin.gpg")
        ["pub:x".data, "fpr:".data]).fst ≠ some ("Z".data) := by
  decide

/-- Claim C6 (amended): for every colon stream containing no certificate
(`pub:`) record, `gpg_getKeyID` returns the caller's original expected
identity string verbatim, as a successful (non-error) result produced after
the trust-store call, the keyring lookup and the subprocess spawn. -/
theorem getKeyID_no_pub_fallback (id : List Char) (kr : String)
    (stream : List (List Char))
    (h : ∀ l ∈ stream, match_prefix l pub_str = false) :
    gpg_getKeyID (some id) (some kr) stream
      = (some id, [Effect.callGpgInit, Effect.callGetDbPathname, Effect.spawnSubprocess]) := by
  simp only [gpg_getKeyID]
  rw [getKeyID_scan_no_pub id stream none h]

/-- Witness for the amended C6 on a stream holding only user-identity and
fingerprint records. -/
theorem getKeyID_no_pub_fallback_witness :
    gpg_getKeyID (some ("Example Archive <sign@example.org>".data)) (some "origin.gpg")
        ["uid:u:1:2:3:4:5:6:7:Example Archive <sign@example.org>:".data,
         "fpr:::::::::ABCDABCDABCDABCDABCDABCDABCDABCDABCD1234:".data]
      = (some ("Example Archive <sign@example.org>".data),
          [Effect.callGpgInit, Effect.callGetDbPathname, Effect.spawnSubprocess]) :=
  getKeyID_no_pub_fallback _ _ _ (by decide)

/-- Claim C7 (code bug): a packet listing whose signature-packet record
carries a key id and which contains no issuer-fingerprint line anywhere is
claimed to yield that key id.  If any non-comment line precedes the
signature-packet record, the unconditional `state = KEYID_SIG` transition
consumes the `KEYID_UNKNOWN` state on it, the key id is never captured, and
the result is no identifier at all. -/
theorem getSigKeyID_keyid_fallback_bug_eval :
    gpg_getSigKeyID 1
        [":compressed packet: algo=1".data,
         ":signature packet: algo 1, keyid ABCDEF0123456789".data]
      = none := by
  decide

/-- Claim C8: `gpg_init` is idempotent — a second call before teardown
returns the same state unchanged (same directory handle, no new directory,
no new environment override, no new atexit registration) — and over any
sequence of `gpg_init` calls in one process lifetime the trust-store
directory is created at most once, the environment overridden at most once,
and the cleanup handler registered at most once. -/
theorem gpg_init_idempotent_spec :
    (∀ (s : GpgState) (p d : Option String) (s' : GpgState) (p' d' : Option String),
        gpg_init s p d = Except.ok s' → gpg_init s' p' d' = Except.ok s')
    ∧ (∀ calls : List (Option String × Option String),
        (runInits initGpgState calls).dirs_created ≤ 1 ∧
        (runInits initGpgState calls).env_sets ≤ 1 ∧
        (runInits initGpgState calls).atexit_regs ≤ 1) := by
  constructor
  · intro s p d s' p' d' h
    have hs' : s'.gpg_inited = true := by
      unfold gpg_init at h
      by_cases hi : s.gpg_inited
      · rw [if_pos hi] at h
        injection h with h'
        rw [← h']
        exact hi
      · rw [if_neg hi] at h
        cases d with
        | none => simp at h
        | some dir =>
          injection h with h'
          rw [← h']
    unfold gpg_init
    rw [if_pos hs']
  · intro calls
    have h := runInits_counters calls initGpgState
    simpa [initGpgState] using h

/-- Witness for C8: after a successful first `gpg_init`, a further call
returns the very same state. -/
theorem gpg_init_idempotent_witness :
    gpg_init
        { gpg_inited := true, gpg_prog := "gpg", gpg_tmpdir := some "/tmp/debsig.aB3xQ",
          env_gnupghome := some "/tmp/debsig.aB3xQ", tmpdir_exists := true,
          dirs_created := 1, env_sets := 1, atexit_regs := 1 } none none
      = Except.ok
        { gpg_inited := true, gpg_prog := "gpg", gpg_tmpdir := some "/tmp/debsig.aB3xQ",
          env_gnupghome := some "/tmp/debsig.aB3xQ", tmpdir_exists := true,
          dirs_created := 1, env_sets := 1, atexit_regs := 1 } :=
  gpg_init_idempotent_spec.1 initGpgState none (some "/tmp/debsig.aB3xQ")
    { gpg_inited := true, gpg_prog := "gpg", gpg_tmpdir := some "/tmp/debsig.aB3xQ",
      env_gnupghome := some "/tmp/debsig.aB3xQ", tmpdir_exists := true,
      dirs_created := 1, env_sets := 1, atexit_regs := 1 } none none rfl

/-- Claim C9 counterexample: after acquiring the trust store and running
`cleanup_gpg_tmpdir`, the GNUPGHOME override is still set to the removed
directory — the cleanup never clears it, contradicting the claim that
neither the directory nor the override is left in place. -/
theorem cleanup_keeps_gnupghome_cex :
    (gpg_init initGpgState none (some "/tmp/debsig.w9xYz")).map
        (fun s => (cleanup_gpg_tmpdir s).env_gnupghome)
      = Except.ok (some "/tmp/debsig.w9xYz")
    ∧ some "/tmp/debsig.w9xYz" ≠ (none : Option String) :=
  ⟨rfl, by decide⟩

/-- Claim C9 (amended): `cleanup_gpg_tmpdir`, run once at process
termination, removes the trust-store directory and resets the module state
(the directory handle is freed and the inited flag cleared), but the
GNUPGHOME environment override set by `gpg_init` is left in place, still
naming the removed directory. -/
theorem cleanup_gpg_tmpdir_spec (s0 : GpgState) (p : Option String) (dir : String)
    (s1 : GpgState) (h0 : s0.gpg_inited = false)
    (h : gpg_init s0 p (some dir) = Except.ok s1) :
    (cleanup_gpg_tmpdir s1).tmpdir_exists = false ∧
    (cleanup_gpg_tmpdir s1).gpg_tmpdir = none ∧
    (cleanup_gpg_tmpdir s1).gpg_inited = false ∧
    (cleanup_gpg_tmpdir s1).env_gnupghome = some dir := by
  unfold gpg_init at h
  rw [if_neg (by simp [h0] : ¬ s0.gpg_inited = true)] at h
  injection h with h'
  rw [← h']
  exact ⟨rfl, rfl, rfl, rfl⟩

/-- Witness for the amended C9 from the fresh process state. -/
theorem cleanup_gpg_tmpdir_witness :
    (cleanup_gpg_tmpdir
        { gpg_inited := true, gpg_prog := "gpg", gpg_tmpdir := some "/tmp/debsig.w1",
          env_gnupghome := some "/tmp/debsig.w1", tmpdir_exists := true,
          dirs_created := 1, env_sets := 1, atexit_regs := 1 }).tmpdir_exists = false ∧
    (cleanup_gpg_tmpdir
        { gpg_inited := true, gpg_prog := "gpg", gpg_tmpdir := some "/tmp/debsig.w1",
          env_gnupghome := some "/tmp/debsig.w1", tmpdir_exists := true,
          dirs_created := 1, env_sets := 1, atexit_regs := 1 }).gpg_tmpdir = none ∧
    (cleanup_gpg_tmpdir
        { gpg_inited := true, gpg_prog := "gpg", gpg_tmpdir := some "/tmp/debsig.w1",
          env_gnupghome := some "/tmp/debsig.w1", tmpdir_exists := true,
          dirs_created := 1, env_sets := 1, atexit_regs := 1 }).gpg_inited = false ∧
    (cleanup_gpg_tmpdir
        { gpg_inited := true, gpg_prog := "gpg", gpg_tmpdir := some "/tmp/debsig.w1",
          env_gnupghome := some "/tmp/debsig.w1", tmpdir_exists := true,
          dirs_created := 1, env_sets := 1, atexit_regs := 1 }).env_gnupghome
      = some "/tmp/debsig.w1" :=
  cleanup_gpg_tmpdir_spec initGpgState none "/tmp/debsig.w1"
    { gpg_inited := true, gpg_prog := "gpg", gpg_tmpdir := some "/tmp/debsig.w1",
      env_gnupghome := some "/tmp/debsig.w1", tmpdir_exists := true,
      dirs_created := 1, env_sets := 1, atexit_regs := 1 } rfl rfl

/-- Claim C10: when the expected-match declaration carries no identity string
(`mtc->id == NULL`), `gpg_getKeyID` returns no identifier at once, with an
empty effect trace: no trust-store call, no keyring lookup, no subprocess. -/
theorem getKeyID_null_id_spec :
    ∀ (keyring : Option String) (stream : List (List Char)),
      gpg_getKeyID none keyring stream = (none, []) := by
  intro keyring stream
  rfl

end OpenpgpGpg
